import Mathlib

/-
Verification of the generic stream protocol descriptor
(asio/include/asio/generic/stream_protocol.hpp).

The descriptor exists in two mutually exclusive build forms:
the raw form storing two integers (family_, protocol_), and the
parameter-bundle form (Apple Network Framework) storing an owned
parameter handle plus a max receive size.  Both are embedded below,
together with the converting constructor, the accessors, and equality.
-/

namespace Asio

/-- The fixed stream socket type constant, ASIO_OS_DEF(SOCK_STREAM). -/
def SOCK_STREAM : Int := 1

/-- Runtime view of a concrete protocol object offered to the converting
constructor: its family(), protocol() and type() accessor values. -/
structure ConcreteProtocol where
  family : Int
  protocol : Int
  type : Int
deriving DecidableEq

/-- The type-mismatch failure: the std.bad_cast exception thrown by the
converting constructor when the source protocol is not stream-oriented. -/
inductive BadCast where
  | badCast
deriving DecidableEq

/-- The generic stream protocol descriptor, raw form: stores the address
family and the socket protocol number (members family_ and protocol_). -/
structure stream_protocol where
  family_ : Int
  protocol_ : Int
deriving DecidableEq

/-- Direct raw constructor stream_protocol(int address_family, int
socket_protocol): stores both integers verbatim, no validation. -/
def stream_protocol.mkRaw (address_family socket_protocol : Int) : stream_protocol :=
  ⟨address_family, socket_protocol⟩

/-- Accessor type(): returns the fixed stream-type constant, ignoring the
stored members entirely. -/
def stream_protocol.type (_ : stream_protocol) : Int :=
  SOCK_STREAM

/-- Accessor protocol(): returns the stored protocol_ member. -/
def stream_protocol.protocol (d : stream_protocol) : Int :=
  d.protocol_

/-- Accessor family(): returns the stored family_ member. -/
def stream_protocol.family (d : stream_protocol) : Int :=
  d.family_

/-- Converting constructor from a concrete protocol: initialises family_
and protocol_ from the source's accessors, then throws bad_cast when
source_protocol.type() differs from this descriptor's type(). -/
def stream_protocol.ofProtocol (source_protocol : ConcreteProtocol) :
    Except BadCast stream_protocol :=
  let d : stream_protocol := ⟨source_protocol.family, source_protocol.protocol⟩
  if source_protocol.type ≠ d.type then .error .badCast else .ok d

/-- Equality comparison of two raw-form descriptors: compares family_ and
protocol_ pairwise. -/
def stream_protocol.beq (p1 p2 : stream_protocol) : Bool :=
  p1.family_ == p2.family_ && p1.protocol_ == p2.protocol_

/-- Inequality comparison: the logical negation of the equality comparison. -/
def stream_protocol.bne (p1 p2 : stream_protocol) : Bool :=
  !(stream_protocol.beq p1 p2)

/-- A class type offered to the converting constructor's template parameter:
tag identifies the class type itself, endpoint_protocol_tag identifies its
nested endpoint's protocol_type, and runtime holds the object's accessor
values. -/
structure SourceProtocolType where
  tag : Nat
  endpoint_protocol_tag : Nat
  runtime : ConcreteProtocol

/-- The enable_if constraint on the converting constructor: it participates
in overload resolution exactly when the template type equals its own nested
endpoint's protocol_type (is_same of the two tags). -/
def participates (P : SourceProtocolType) : Bool :=
  P.tag == P.endpoint_protocol_tag

/-- Overload resolution followed by execution of the converting constructor:
none when the enable_if constraint removes the overload (compile-time
rejection, no runtime behaviour at all), otherwise the runtime result of the
constructor body. -/
def convertResolve (P : SourceProtocolType) : Option (Except BadCast stream_protocol) :=
  if participates P then some (stream_protocol.ofProtocol P.runtime) else none

/-- The operations the raw-form descriptor exposes. -/
inductive Op where
  | mkRaw (address_family socket_protocol : Int)
  | typeOf (d : stream_protocol)
  | familyOf (d : stream_protocol)
  | protocolOf (d : stream_protocol)
  | eqOp (p1 p2 : stream_protocol)
  | neOp (p1 p2 : stream_protocol)
  | convert (source_protocol : ConcreteProtocol)

/-- The value an operation produces. -/
inductive OpResult where
  | descr (d : stream_protocol)
  | int (i : Int)
  | bool (b : Bool)

/-- Run one operation of the raw-form descriptor; the result is an error
exactly when the operation's body throws. -/
def runOp : Op → Except BadCast OpResult
  | .mkRaw f p => .ok (.descr (stream_protocol.mkRaw f p))
  | .typeOf d => .ok (.int d.type)
  | .familyOf d => .ok (.int d.family)
  | .protocolOf d => .ok (.int d.protocol)
  | .eqOp p1 p2 => .ok (.bool (stream_protocol.beq p1 p2))
  | .neOp p1 p2 => .ok (.bool (stream_protocol.bne p1 p2))
  | .convert s => (stream_protocol.ofProtocol s).map .descr

/-- Heap of live Apple Network Framework parameter objects: next is the
first unused object identity, content the abstract parameter content held
behind each identity. -/
structure NWHeap where
  next : Nat
  content : Nat → Int

/-- Modelled from the spec: nw_parameters_copy (Network framework, not under
src) returns a fresh independent copy of the parameter object behind a
handle — a new identity carrying the same content (duplicate-on-read). -/
def nw_parameters_copy (h : NWHeap) (p : Nat) : Nat × NWHeap :=
  (h.next, ⟨h.next + 1, fun i => if i = h.next then h.content p else h.content i⟩)

/-- Mutation of the parameter object behind a handle: overwrites the content
stored at that identity. -/
def nw_set_content (h : NWHeap) (p : Nat) (v : Int) : NWHeap :=
  ⟨h.next, fun i => if i = p then v else h.content i⟩

/-- The generic stream protocol descriptor, parameter-bundle form: an owned
parameter handle (member parameters_) plus a max receive size override
(member max_receive_size_). -/
structure apple_stream_protocol where
  parameters_ : Nat
  max_receive_size_ : Nat

/-- Accessor type() of the parameter-bundle form: the same fixed stream-type
constant, ignoring the stored members. -/
def apple_stream_protocol.type (_ : apple_stream_protocol) : Int :=
  SOCK_STREAM

/-- Accessor apple_nw_create_parameters(): returns
apple_nw_ptr(nw_parameters_copy(parameters_)), a fresh copy of the stored
handle, leaving the stored handle untouched. -/
def apple_stream_protocol.apple_nw_create_parameters
    (d : apple_stream_protocol) (h : NWHeap) : Nat × NWHeap :=
  nw_parameters_copy h d.parameters_

/-- Accessor apple_nw_max_receive_size(): returns the stored override. -/
def apple_stream_protocol.apple_nw_max_receive_size
    (d : apple_stream_protocol) : Nat :=
  d.max_receive_size_

/-- Modelled from the spec: equality of apple_nw_ptr handles (detail header
not under src) compares handle identity, not deep parameter content.  The
parameter-bundle form's equality comparison then also compares
max_receive_size_. -/
def apple_stream_protocol.beq (p1 p2 : apple_stream_protocol) : Bool :=
  p1.parameters_ == p2.parameters_ && p1.max_receive_size_ == p2.max_receive_size_

/-- A concrete protocol in the parameter-bundle build form: its type()
value, its max receive size override, and the parameter content its
apple_nw_create_parameters() produces. -/
structure AppleConcreteProtocol where
  type : Int
  max_receive_size : Nat
  paramsContent : Int

/-- Modelled from the spec: the source protocol's apple_nw_create_parameters()
creates a fresh parameter object (a brand-new identity) on every call. -/
def AppleConcreteProtocol.create_parameters
    (s : AppleConcreteProtocol) (h : NWHeap) : Nat × NWHeap :=
  (h.next, ⟨h.next + 1, fun i => if i = h.next then s.paramsContent else h.content i⟩)

/-- Converting constructor of the parameter-bundle form: stores a freshly
created parameter handle obtained from the source together with the source's
max receive size, then throws bad_cast when the source's type() differs from
this descriptor's type(). -/
def apple_stream_protocol.ofProtocol (src : AppleConcreteProtocol) (h : NWHeap) :
    Except BadCast apple_stream_protocol × NWHeap :=
  let r := src.create_parameters h
  let d : apple_stream_protocol := ⟨r.1, src.max_receive_size⟩
  if src.type ≠ d.type then (.error .badCast, r.2) else (.ok d, r.2)

/-- Claim C1: the converting constructor throws bad_cast exactly when the
source protocol's type() differs from the fixed stream-type constant; on
failure no usable descriptor is produced; and the converting constructor is
the only operation of the type that can fail. -/
theorem converting_ctor_fails_iff_type_mismatch (s : ConcreteProtocol) :
    (stream_protocol.ofProtocol s = .error .badCast ↔ s.type ≠ SOCK_STREAM) ∧
    (s.type ≠ SOCK_STREAM → ∀ d, stream_protocol.ofProtocol s ≠ .ok d) ∧
    (∀ op : Op, (runOp op).isOk = false → ∃ s2, op = Op.convert s2) := by
  refine ⟨?_, ?_, ?_⟩
  · by_cases hs : s.type = SOCK_STREAM <;>
      simp [stream_protocol.ofProtocol, stream_protocol.type, hs]
  · intro hs d
    simp [stream_protocol.ofProtocol, stream_protocol.type, hs]
  · intro op hop
    cases op
    case convert s2 => exact ⟨s2, rfl⟩
    all_goals simp [runOp, Except.isOk, Except.toBool] at hop

/-- Claim C2: whenever the source's type() equals the stream constant — with
no restriction on its family() or protocol() values — conversion succeeds,
and the resulting descriptor reports the source's family() and protocol()
and equals a descriptor built directly from those two integers. -/
theorem converting_ctor_roundtrip (s : ConcreteProtocol)
    (h : s.type = SOCK_STREAM) :
    ∃ d, stream_protocol.ofProtocol s = .ok d ∧
      d.family = s.family ∧ d.protocol = s.protocol ∧
      stream_protocol.beq d (stream_protocol.mkRaw s.family s.protocol) = true ∧
      d = stream_protocol.mkRaw s.family s.protocol := by
  refine ⟨⟨s.family, s.protocol⟩, ?_, rfl, rfl, ?_, rfl⟩
  · simp [stream_protocol.ofProtocol, stream_protocol.type, h]
  · simp [stream_protocol.beq, stream_protocol.mkRaw]

/-- Witness for claim C2 at the spec's example: a concrete stream protocol
with family 10, protocol 6 converts to the descriptor built from (10, 6). -/
theorem converting_ctor_roundtrip_witness :
    ∃ d, stream_protocol.ofProtocol ⟨10, 6, 1⟩ = .ok d ∧
      d.family = 10 ∧ d.protocol = 6 ∧
      stream_protocol.beq d (stream_protocol.mkRaw 10 6) = true ∧
      d = stream_protocol.mkRaw 10 6 :=
  converting_ctor_roundtrip ⟨10, 6, 1⟩ (by decide)

/-- Claim C3: a descriptor built directly from two integers stores both
verbatim, and reports family() and protocol() back verbatim and type() as
the stream constant; the construction is a total function. -/
theorem mkRaw_reports_verbatim (f p : Int) :
    (stream_protocol.mkRaw f p).family = f ∧
    (stream_protocol.mkRaw f p).protocol = p ∧
    (stream_protocol.mkRaw f p).type = SOCK_STREAM :=
  ⟨rfl, rfl, rfl⟩

/-- Claim C4: two raw-built descriptors compare equal exactly when their
construction integers match componentwise, and inequality is the exact
logical negation of equality. -/
theorem eq_iff_components (f1 p1 f2 p2 : Int) :
    (stream_protocol.beq (stream_protocol.mkRaw f1 p1)
        (stream_protocol.mkRaw f2 p2) = true ↔ f1 = f2 ∧ p1 = p2) ∧
    (∀ a b : stream_protocol,
      stream_protocol.bne a b = !(stream_protocol.beq a b)) := by
  constructor
  · simp [stream_protocol.beq, stream_protocol.mkRaw]
  · intro a b
    rfl

/-- Claim C5: type() returns the fixed stream-type constant on every
descriptor instance of either form, in particular on descriptors from the
direct raw construction and from a successful conversion. -/
theorem type_always_stream :
    (∀ d : stream_protocol, d.type = SOCK_STREAM) ∧
    (∀ d : apple_stream_protocol, d.type = SOCK_STREAM) ∧
    (∀ f p : Int, (stream_protocol.mkRaw f p).type = SOCK_STREAM) ∧
    (∀ s d, stream_protocol.ofProtocol s = .ok d → d.type = SOCK_STREAM) :=
  ⟨fun _ => rfl, fun _ => rfl, fun _ _ => rfl, fun _ _ _ => rfl⟩

/-- Claim C6: descriptor equality is reflexive, symmetric and transitive. -/
theorem beq_equivalence :
    (∀ a : stream_protocol, stream_protocol.beq a a = true) ∧
    (∀ a b : stream_protocol,
      stream_protocol.beq a b = true → stream_protocol.beq b a = true) ∧
    (∀ a b c : stream_protocol,
      stream_protocol.beq a b = true → stream_protocol.beq b c = true →
        stream_protocol.beq a c = true) := by
  refine ⟨?_, ?_, ?_⟩ <;>
    · intros
      simp_all [stream_protocol.beq]

/-- Claim C7: the converting constructor participates in overload resolution
exactly for structurally self-consistent source types; for any type
violating the constraint the overload is absent and there is no runtime
behaviour at all. -/
theorem enable_if_gates_conversion (P : SourceProtocolType) :
    convertResolve P = none ↔ participates P = false := by
  unfold convertResolve
  by_cases hp : participates P <;> simp [hp]

/-- Claim C8: the parameter accessor duplicates on read.  The returned
handle is fresh (distinct from the stored one), the accessor leaves the
content behind the stored handle unchanged, mutating the returned handle
leaves the stored handle's content unchanged, and a second read yields yet
another independent fresh handle, again preserving the stored content. -/
theorem create_parameters_duplicate_on_read
    (d : apple_stream_protocol) (h : NWHeap) (v : Int)
    (hval : d.parameters_ < h.next) :
    (d.apple_nw_create_parameters h).1 ≠ d.parameters_ ∧
    ((d.apple_nw_create_parameters h).2).content d.parameters_
      = h.content d.parameters_ ∧
    (nw_set_content (d.apple_nw_create_parameters h).2
        (d.apple_nw_create_parameters h).1 v).content d.parameters_
      = h.content d.parameters_ ∧
    (d.apple_nw_create_parameters ((d.apple_nw_create_parameters h).2)).1
      ≠ (d.apple_nw_create_parameters h).1 ∧
    (d.apple_nw_create_parameters ((d.apple_nw_create_parameters h).2)).1
      ≠ d.parameters_ ∧
    ((d.apple_nw_create_parameters ((d.apple_nw_create_parameters h).2)).2).content
        d.parameters_ = h.content d.parameters_ := by
  have h1 : d.parameters_ ≠ h.next := Nat.ne_of_lt hval
  have h2 : d.parameters_ ≠ h.next + 1 := by omega
  refine ⟨?_, ?_, ?_, ?_, ?_, ?_⟩ <;>
    simp [apple_stream_protocol.apple_nw_create_parameters, nw_parameters_copy,
      nw_set_content, h1, h2, Ne.symm h1, Ne.symm h2]

/-- Witness for claim C8: with one live parameter object the accessor's
returned handle differs from the stored handle 0. -/
theorem create_parameters_duplicate_on_read_witness :
    ((⟨0, 5⟩ : apple_stream_protocol).apple_nw_create_parameters
      ⟨1, fun _ => 7⟩).1 ≠ 0 :=
  (create_parameters_duplicate_on_read ⟨0, 5⟩ ⟨1, fun _ => 7⟩ 42 (by decide)).1

/-- Claim C9: every operation other than the converting constructor — the
accessors, equality and inequality, and the direct constructor — succeeds on
every input. -/
theorem non_converting_ops_total (op : Op) (hnc : ∀ s, op ≠ Op.convert s) :
    (runOp op).isOk = true := by
  cases op
  case convert s => exact absurd rfl (hnc s)
  all_goals rfl

/-- Witness for claim C9: the direct raw construction succeeds. -/
theorem non_converting_ops_total_witness :
    (runOp (Op.mkRaw 2 6)).isOk = true :=
  non_converting_ops_total (Op.mkRaw 2 6) (fun _ hc => Op.noConfusion hc)

/-- Claim C10: in the parameter-bundle form, converting the same concrete
protocol twice produces two descriptors that compare unequal: each
conversion stores a freshly created parameter handle and equality compares
handle identity together with max_receive_size, not deep content. -/
theorem apple_convert_twice_unequal (src : AppleConcreteProtocol) (h : NWHeap)
    (hstream : src.type = SOCK_STREAM) :
    ∃ d1 d2 h1 h2,
      apple_stream_protocol.ofProtocol src h = (.ok d1, h1) ∧
      apple_stream_protocol.ofProtocol src h1 = (.ok d2, h2) ∧
      apple_stream_protocol.beq d1 d2 = false := by
  refine ⟨⟨h.next, src.max_receive_size⟩,
    ⟨h.next + 1, src.max_receive_size⟩,
    ⟨h.next + 1, fun i => if i = h.next then src.paramsContent else h.content i⟩,
    ⟨h.next + 2, fun i => if i = h.next + 1 then src.paramsContent
      else if i = h.next then src.paramsContent else h.content i⟩,
    ?_, ?_, ?_⟩
  · simp [apple_stream_protocol.ofProtocol, AppleConcreteProtocol.create_parameters,
      apple_stream_protocol.type, hstream]
  · simp [apple_stream_protocol.ofProtocol, AppleConcreteProtocol.create_parameters,
      apple_stream_protocol.type, hstream]
  · simp [apple_stream_protocol.beq]

/-- Witness for claim C10: converting a stream-typed source twice from the
empty heap yields two descriptors comparing unequal. -/
theorem apple_convert_twice_unequal_witness :
    ∃ d1 d2 h1 h2,
      apple_stream_protocol.ofProtocol ⟨1, 9, 3⟩ ⟨0, fun _ => 0⟩ = (.ok d1, h1) ∧
      apple_stream_protocol.ofProtocol ⟨1, 9, 3⟩ h1 = (.ok d2, h2) ∧
      apple_stream_protocol.beq d1 d2 = false :=
  apple_convert_twice_unequal ⟨1, 9, 3⟩ ⟨0, fun _ => 0⟩ (by decide)

end Asio
